import Mathlib

set_option maxRecDepth 40000

/-!
# Verification of the Webpage-Analysis service core

Shallow embedding of the content-extraction and prompt-assembly pipeline of
the service (`server.js`, two revisions).  JavaScript strings are modelled in
two ways, each faithful to the operations a given claim exercises:

* `List Char` for the per-fragment text transformations (`trim`,
  `replace(/\s+/g, " ")`, fence-marker stripping), where every operation is
  per-code-point and surrogate pairs are never split;
* `List Nat` of UTF-16 code units for the scrape pipeline
  (`join("\n").substring(0, 10000)`, `split(/\s+/)`, `split(".")`), because
  JavaScript `substring` and `length` count UTF-16 code units.
-/

/-- The JavaScript whitespace class (`\s`, and the set removed by
`String.prototype.trim`), on UTF-16 code units. -/
def wsU (n : Nat) : Bool :=
  n = 9 || n = 10 || n = 11 || n = 12 || n = 13 || n = 32 ||
  n = 160 || n = 0x1680 || (0x2000 ≤ n && n ≤ 0x200A) ||
  n = 0x2028 || n = 0x2029 || n = 0x202F || n = 0x205F || n = 0x3000 || n = 0xFEFF

/-- JavaScript whitespace on characters (code points; the class contains no
astral code point, so the code-point and code-unit views agree). -/
def wsChar (c : Char) : Bool := wsU c.toNat

/-- Leading-whitespace removal, the first half of `String.prototype.trim`. -/
def trimL (s : List Char) : List Char := s.dropWhile wsChar

/-- Trailing-whitespace removal, the second half of `String.prototype.trim`. -/
def trimR (s : List Char) : List Char := (s.reverse.dropWhile wsChar).reverse

/-- Models `String.prototype.trim`: drop whitespace from both ends. -/
def jsTrim (s : List Char) : List Char := trimR (trimL s)

/-- Boolean prefix test, modelling `String.prototype.startsWith`. -/
def startsWithL : List Char → List Char → Bool
  | [], _ => true
  | _ :: _, [] => false
  | p :: ps, c :: cs => p = c && startsWithL ps cs

/-- Boolean suffix test, modelling `String.prototype.endsWith`. -/
def endsWithL (p s : List Char) : Bool := startsWithL p.reverse s.reverse

/-- Case-insensitive prefix test (ASCII lowering), for the `/.../i` regexes. -/
def startsWithCI : List Char → List Char → Bool
  | [], _ => true
  | _ :: _, [] => false
  | p :: ps, c :: cs => p.toLower = c.toLower && startsWithCI ps cs

/-- Models `s.replace(/^\s*json\s*/i, "")`: the regex matches iff, after the
maximal leading whitespace run, the four letters `json` follow
(case-insensitively); the match also swallows the whitespace after the token. -/
def stripJsonTok (s : List Char) : List Char :=
  let t := s.dropWhile wsChar
  if startsWithCI ("json".toList) t then (t.drop 4).dropWhile wsChar else s

/-- Models `s.replace(/^\s*html\s*/i, "")`, same shape as `stripJsonTok`. -/
def stripHtmlTok (s : List Char) : List Char :=
  let t := s.dropWhile wsChar
  if startsWithCI ("html".toList) t then (t.drop 4).dropWhile wsChar else s

/-- Function `cleanJsonResponse` from the first revision of `server.js`:
trim; strip a leading ```` ```json ```` (7 chars) or bare ```` ``` ```` (3
chars); strip a trailing ```` ``` ````; strip a leading `json` token; trim. -/
def cleanJsonResponse (s : List Char) : List Char :=
  let c0 := jsTrim s
  let c1 := if startsWithL ("```json".toList) c0 then c0.drop 7
            else if startsWithL ("```".toList) c0 then c0.drop 3
            else c0
  let c2 := if endsWithL ("```".toList) c1 then c1.take (c1.length - 3) else c1
  jsTrim (stripJsonTok c2)

/-- Models `s.replace("\x60\x60\x60html", "")`: removes the first occurrence
of the pattern (in the handler it is guarded by `startsWith`). -/
def removeFirstHtmlFence : List Char → List Char
  | '`' :: '`' :: '`' :: 'h' :: 't' :: 'm' :: 'l' :: rest => rest
  | c :: cs => c :: removeFirstHtmlFence cs
  | [] => []

/-- Models `s.replaceAll("\x60\x60\x60", "")`: every occurrence of three
backticks removed. -/
def removeAllFence : List Char → List Char
  | '`' :: '`' :: '`' :: rest => removeAllFence rest
  | c :: cs => c :: removeAllFence cs
  | [] => []

/-- Function `cleanHtmlResponse` from the second revision of `server.js`:
trim; if the text starts with ```` ```html ```` remove that first occurrence,
else if it starts with ```` ``` ```` remove **all** fence markers; strip a
trailing ```` ``` ````; strip a leading `html` token; trim. -/
def cleanHtmlResponse (s : List Char) : List Char :=
  let c0 := jsTrim s
  let c1 := if startsWithL ("```html".toList) c0 then removeFirstHtmlFence c0
            else if startsWithL ("```".toList) c0 then removeAllFence c0
            else c0
  let c2 := if endsWithL ("```".toList) c1 then c1.take (c1.length - 3) else c1
  jsTrim (stripHtmlTok c2)

example : cleanJsonResponse ("```json\nhi\n```".toList) = "hi".toList := by decide
example : cleanJsonResponse ("``````json".toList) = "```json".toList := by decide
example : cleanJsonResponse ("```json".toList) = [] := by decide
example : cleanHtmlResponse ("```html```html".toList) = "```html".toList := by decide
example : cleanHtmlResponse ("```html".toList) = [] := by decide

/-! ## Prompt builder (`generatePrompt`, second revision of `server.js`)

Each template literal is split at its interpolation points
(`topic`, `keywordText`, `improvementText`, `baseInstructions`); the
fixed text chunks are transcribed verbatim from the source. -/

/-- Fixed formatting directive appended to every generation template. -/
def baseInstructions : String := "
⚠️ Output the response as raw HTML only. Do **not** include any <html>, <head>, or <body> tags. Wrap the entire content inside a single <div> element.
✅ Use Tailwind CSS utility classes for styling headings, paragraphs, lists, and other elements.
Ensure the HTML structure is clean, semantic, and visually appealing using Tailwind conventions.
"

/-- Models `keywords.join(", ") || "none provided"` (empty join is falsy). -/
def keywordTextOf (keywords : List String) : String :=
  let j := String.intercalate ", " keywords
  if j = "" then "none provided" else j

/-- Models the `improvementText` ternary of `generatePrompt`. -/
def improvementTextOf (improvements : List String) : String :=
  if 0 < improvements.length then
    "Apply the following enhancements to improve the quality of the content: " ++
      String.intercalate ", " improvements ++ "."
  else ""

/-- First fixed chunk of the FAQ template (before the topic). -/
def faqChunk1 : String := "
You are an expert content writer specializing in FAQ creation and customer support content.

Create a comprehensive FAQ section for the topic: \""

/-- Second fixed chunk of the FAQ template (topic to keyword list). -/
def faqChunk2 : String := "\".

Requirements:
- Generate 8-12 frequently asked questions with detailed, helpful answers
- Each question should address common user concerns, problems, or inquiries
- Arrange questions from most basic to more specific/advanced
- Use a conversational, helpful tone that builds trust
- Include practical examples, tips, or step-by-step guidance where appropriate
- Structure each Q&A pair clearly with proper HTML semantics

Incorporate these SEO keywords naturally: "

/-- Third fixed chunk of the FAQ template (after the improvement text). -/
def faqChunk3 : String := "

Format Guidelines:
- Use <h2> for the main \"Frequently Asked Questions\" heading
- Use <h3> for each individual question
- Use <p> tags for answers with proper paragraph breaks
- Include <ul> or <ol> lists where helpful for step-by-step instructions
- Add emphasis with <strong> or <em> tags where appropriate

"

/-- Case `"FAQ"` of the `generatePrompt` switch. -/
def faqTemplate (topic keywordText improvementText : String) : String :=
  faqChunk1 ++ topic ++ faqChunk2 ++ keywordText ++ "\n\n" ++ improvementText ++
    faqChunk3 ++ baseInstructions ++ "\n"

/-- First fixed chunk of the Blog Post template. -/
def blogChunk1 : String := "
You are an expert blog writer and content strategist who creates engaging, informative blog posts.

Write a comprehensive blog post about: \""

/-- Second fixed chunk of the Blog Post template. -/
def blogChunk2 : String := "\".

Requirements:
- Create an engaging, SEO-optimized blog post of 800-1200 words
- Include a compelling introduction that hooks the reader
- Organize content with clear headings and subheadings (H2, H3)
- Use storytelling elements, examples, and practical insights
- Include actionable tips, strategies, or takeaways
- Add a strong conclusion that summarizes key points
- Write in a conversational, engaging tone that keeps readers interested
- Include relevant statistics, facts, or expert insights where appropriate

Incorporate these SEO keywords naturally: "

/-- Third fixed chunk of the Blog Post template. -/
def blogChunk3 : String := "

Structure Guidelines:
- Use <h1> for the main title
- Use <h2> for major sections
- Use <h3> for subsections
- Include <p> tags for paragraphs with proper spacing
- Use <ul> or <ol> for lists and bullet points
- Add <blockquote> for important quotes or statistics
- Use <strong> and <em> for emphasis

"

/-- Case `"Blog Post"` of the `generatePrompt` switch. -/
def blogPostTemplate (topic keywordText improvementText : String) : String :=
  blogChunk1 ++ topic ++ blogChunk2 ++ keywordText ++ "\n\n" ++ improvementText ++
    blogChunk3 ++ baseInstructions ++ "\n"

/-- First fixed chunk of the Product Description template. -/
def productChunk1 : String := "
You are an expert e-commerce copywriter specializing in product descriptions that convert visitors into customers.

Create a compelling product description for: \""

/-- Second fixed chunk of the Product Description template. -/
def productChunk2 : String := "\".

Requirements:
- Write a persuasive product description that highlights key features and benefits
- Focus on how the product solves customer problems or improves their life
- Include specific product details, specifications, and unique selling points
- Use persuasive language that creates urgency and desire
- Address potential customer objections or concerns
- Include social proof elements if applicable
- Write in a sales-focused, benefit-driven tone
- Keep description scannable with bullet points and short paragraphs

Incorporate these SEO keywords naturally: "

/-- Third fixed chunk of the Product Description template. -/
def productChunk3 : String := "

Format Guidelines:
- Use <h2> for the product name/title
- Use <h3> for sections like \"Key Features\", \"Benefits\", \"Specifications\"
- Use <p> tags for descriptive paragraphs
- Use <ul> for feature lists and bullet points
- Use <strong> for highlighting important benefits or features
- Include call-to-action language naturally within the content

"

/-- Case `"Product Description"` of the `generatePrompt` switch. -/
def productDescriptionTemplate (topic keywordText improvementText : String) : String :=
  productChunk1 ++ topic ++ productChunk2 ++ keywordText ++ "\n\n" ++ improvementText ++
    productChunk3 ++ baseInstructions ++ "\n"

/-- First fixed chunk of the Landing Page Content template. -/
def landingChunk1 : String := "
You are an expert conversion copywriter specializing in high-converting landing page content.

Create compelling landing page content for: \""

/-- Second fixed chunk of the Landing Page Content template. -/
def landingChunk2 : String := "\".

Requirements:
- Write conversion-focused content that drives action
- Include a powerful headline that captures attention immediately
- Create a clear value proposition that explains benefits
- Address visitor pain points and present solutions
- Include social proof, testimonials, or credibility indicators
- Build urgency and scarcity where appropriate
- Include multiple compelling calls-to-action throughout
- Use persuasive copywriting techniques and emotional triggers
- Structure content to guide visitors toward conversion
- Keep sections concise and scannable for quick reading

Incorporate these SEO keywords naturally: "

/-- Third fixed chunk of the Landing Page Content template. -/
def landingChunk3 : String := "

Structure Guidelines:
- Use <h1> for the main headline
- Use <h2> for major sections like \"Benefits\", \"How It Works\", \"Why Choose Us\"
- Use <h3> for subsections and feature highlights
- Use <p> tags for benefit statements and descriptions
- Use <ul> for benefit lists and feature highlights
- Include <div> with appropriate classes for call-to-action sections
- Use <strong> and <em> for emphasis on key benefits

"

/-- Case `"Landing Page Content"` of the `generatePrompt` switch. -/
def landingPageTemplate (topic keywordText improvementText : String) : String :=
  landingChunk1 ++ topic ++ landingChunk2 ++ keywordText ++ "\n\n" ++ improvementText ++
    landingChunk3 ++ baseInstructions ++ "\n"

/-- First fixed chunk of the default template. -/
def defaultChunk1 : String := "
You are an expert content writer and SEO strategist.

Write comprehensive content for the topic: \""

/-- Second fixed chunk of the default template. -/
def defaultChunk2 : String := "\".

Incorporate the following SEO keywords naturally: "

/-- Third fixed chunk of the default template. -/
def defaultChunk3 : String := "

Ensure the content is clear, engaging, informative, and appropriately structured.
Use a tone and format that aligns with best SEO practices and user experience expectations.

"

/-- Default case of the `generatePrompt` switch. -/
def defaultTemplate (topic keywordText improvementText : String) : String :=
  defaultChunk1 ++ topic ++ defaultChunk2 ++ keywordText ++ "\n\n" ++ improvementText ++
    defaultChunk3 ++ baseInstructions ++ "\n"

/-- Function `generatePrompt` of the second revision of `server.js`: the
per-content-type switch (JavaScript `switch` with strict string equality). -/
def generatePrompt (type topic : String) (keywords improvements : List String) : String :=
  let keywordText := keywordTextOf keywords
  let improvementText := improvementTextOf improvements
  if type = "FAQ" then faqTemplate topic keywordText improvementText
  else if type = "Blog Post" then blogPostTemplate topic keywordText improvementText
  else if type = "Product Description" then productDescriptionTemplate topic keywordText improvementText
  else if type = "Landing Page Content" then landingPageTemplate topic keywordText improvementText
  else defaultTemplate topic keywordText improvementText

/-! ## Lemmas about trimming and fence stripping -/

theorem dropWhile_idem (p : α → Bool) (l : List α) :
    (l.dropWhile p).dropWhile p = l.dropWhile p := by
  induction l with
  | nil => rfl
  | cons c cs ih =>
    by_cases h : p c
    · simp [List.dropWhile_cons, h, ih]
    · simp [List.dropWhile_cons, h]

theorem trimR_append (u : List Char) : ∃ w, trimR u ++ w = u := by
  refine ⟨(u.reverse.takeWhile wsChar).reverse, ?_⟩
  rw [trimR, ← List.reverse_append, List.takeWhile_append_dropWhile, List.reverse_reverse]

theorem dropWhile_length_le (p : α → Bool) (l : List α) :
    (l.dropWhile p).length ≤ l.length := by
  induction l with
  | nil => simp
  | cons c cs ih =>
    by_cases h : p c
    · rw [List.dropWhile_cons_of_pos h]
      exact Nat.le_trans ih (Nat.le_succ _)
    · rw [List.dropWhile_cons_of_neg h]

theorem dropWhile_eq_self_head (p : α → Bool) (c : α) (cs : List α)
    (h : (c :: cs).dropWhile p = c :: cs) : p c = false := by
  by_cases hc : p c
  · exfalso
    rw [List.dropWhile_cons_of_pos hc] at h
    have hlen := congrArg List.length h
    have hle := dropWhile_length_le p cs
    simp at hlen
    omega
  · simpa using hc

theorem trimL_trimR (u : List Char) (h : trimL u = u) : trimL (trimR u) = trimR u := by
  obtain ⟨w, hw⟩ := trimR_append u
  cases htr : trimR u with
  | nil => rfl
  | cons c t =>
    have hu : u = c :: (t ++ w) := by rw [← hw, htr]; simp
    have hc : wsChar c = false := by
      apply dropWhile_eq_self_head wsChar c (t ++ w)
      rw [← hu]
      exact h
    simp [trimL, List.dropWhile_cons, hc]

theorem trimR_idem (s : List Char) : trimR (trimR s) = trimR s := by
  simp [trimR, List.reverse_reverse, dropWhile_idem]

theorem jsTrim_idem (s : List Char) : jsTrim (jsTrim s) = jsTrim s := by
  unfold jsTrim
  have hu : trimL (trimL s) = trimL s := dropWhile_idem wsChar s
  rw [trimL_trimR (trimL s) hu, trimR_idem]

theorem startsWithL_append (p q s : List Char)
    (h : startsWithL (p ++ q) s = true) : startsWithL p s = true := by
  induction p generalizing s with
  | nil => rfl
  | cons a ps ih =>
    cases s with
    | nil => simp [startsWithL] at h
    | cons c cs =>
      simp only [List.cons_append, startsWithL, Bool.and_eq_true] at h ⊢
      exact ⟨h.1, ih cs h.2⟩

theorem jsTrim_cleanJsonResponse (x : List Char) :
    jsTrim (cleanJsonResponse x) = cleanJsonResponse x := by
  unfold cleanJsonResponse
  exact jsTrim_idem _

theorem jsTrim_cleanHtmlResponse (x : List Char) :
    jsTrim (cleanHtmlResponse x) = cleanHtmlResponse x := by
  unfold cleanHtmlResponse
  exact jsTrim_idem _

theorem cleanJsonResponse_fixed (y : List Char)
    (hTrim : jsTrim y = y)
    (h1 : startsWithL ("```".toList) y = false)
    (h2 : endsWithL ("```".toList) y = false)
    (h3 : stripJsonTok y = y) : cleanJsonResponse y = y := by
  have h7 : startsWithL ("```json".toList) y = false := by
    cases hs : startsWithL ("```json".toList) y
    · rfl
    · have hsplit : ("```json".toList) = ("```".toList ++ "json".toList) := by decide
      rw [hsplit] at hs
      exact (startsWithL_append _ _ _ hs).symm.trans h1
  simp only [cleanJsonResponse, hTrim, h7, h1, h2, Bool.false_eq_true, if_false, h3]

theorem cleanHtmlResponse_fixed (y : List Char)
    (hTrim : jsTrim y = y)
    (h1 : startsWithL ("```".toList) y = false)
    (h2 : endsWithL ("```".toList) y = false)
    (h3 : stripHtmlTok y = y) : cleanHtmlResponse y = y := by
  have h7 : startsWithL ("```html".toList) y = false := by
    cases hs : startsWithL ("```html".toList) y
    · rfl
    · have hsplit : ("```html".toList) = ("```".toList ++ "html".toList) := by decide
      rw [hsplit] at hs
      exact (startsWithL_append _ _ _ hs).symm.trans h1
  simp only [cleanHtmlResponse, hTrim, h7, h1, h2, Bool.false_eq_true, if_false, h3]

/-- C1 (counterexample). The response-cleaning functions are **not** idempotent
on every input: `cleanJsonResponse` applied to six backticks followed by
`json` (an input beginning with a bare fence marker) leaves a string that a
second application reduces further, and `cleanHtmlResponse` applied to a
doubled `html` fence behaves likewise. -/
theorem clean_not_idempotent_cex :
    cleanJsonResponse (cleanJsonResponse ("``````json".toList)) ≠
      cleanJsonResponse ("``````json".toList) ∧
    cleanHtmlResponse (cleanHtmlResponse ("```html```html".toList)) ≠
      cleanHtmlResponse ("```html```html".toList) := by
  decide

/-- C1 (amended). Response cleaning is idempotent on every input whose cleaned
form does not itself begin with a fence marker, end with a fence marker, or
begin with the language token: for such inputs the second application is the
identity, for both `cleanJsonResponse` and `cleanHtmlResponse`.  In particular
this holds for well-formed single-fenced model outputs. -/
theorem clean_idempotent_amended (x : List Char)
    (hj1 : startsWithL ("```".toList) (cleanJsonResponse x) = false)
    (hj2 : endsWithL ("```".toList) (cleanJsonResponse x) = false)
    (hj3 : stripJsonTok (cleanJsonResponse x) = cleanJsonResponse x)
    (hh1 : startsWithL ("```".toList) (cleanHtmlResponse x) = false)
    (hh2 : endsWithL ("```".toList) (cleanHtmlResponse x) = false)
    (hh3 : stripHtmlTok (cleanHtmlResponse x) = cleanHtmlResponse x) :
    cleanJsonResponse (cleanJsonResponse x) = cleanJsonResponse x ∧
    cleanHtmlResponse (cleanHtmlResponse x) = cleanHtmlResponse x :=
  ⟨cleanJsonResponse_fixed _ (jsTrim_cleanJsonResponse x) hj1 hj2 hj3,
   cleanHtmlResponse_fixed _ (jsTrim_cleanHtmlResponse x) hh1 hh2 hh3⟩

/-- C1 (witness): the amended idempotence at the concrete fenced input
consisting of a json fence, a body, and a closing fence. -/
theorem clean_idempotent_amended_witness :
    cleanJsonResponse (cleanJsonResponse ("```json\nhello world\n```".toList)) =
      cleanJsonResponse ("```json\nhello world\n```".toList) ∧
    cleanHtmlResponse (cleanHtmlResponse ("```json\nhello world\n```".toList)) =
      cleanHtmlResponse ("```json\nhello world\n```".toList) :=
  clean_idempotent_amended ("```json\nhello world\n```".toList)
    (by decide) (by decide) (by decide) (by decide) (by decide) (by decide)

/-! ## Lemmas about the prompt templates -/

theorem head_chunks_ne {α} [DecidableEq α] (p q u v : List α) (n : Nat)
    (hp : n ≤ p.length) (hq : n ≤ q.length) (hne : ¬ p.take n = q.take n)
    (he : p ++ u = q ++ v) : False := by
  apply hne
  have h := congrArg (List.take n) he
  rw [List.take_append_eq_append_take, List.take_append_eq_append_take,
      Nat.sub_eq_zero_of_le hp, Nat.sub_eq_zero_of_le hq] at h
  simpa using h

theorem defaultTemplate_ne_faq (topic kt it : String) :
    defaultTemplate topic kt it ≠ faqTemplate topic kt it := by
  unfold defaultTemplate faqTemplate
  intro he
  have hd := congrArg String.data he
  simp only [String.data_append, List.append_assoc] at hd
  exact head_chunks_ne _ _ _ _ 40 (by decide) (by decide) (by decide) hd

theorem defaultTemplate_ne_blog (topic kt it : String) :
    defaultTemplate topic kt it ≠ blogPostTemplate topic kt it := by
  unfold defaultTemplate blogPostTemplate
  intro he
  have hd := congrArg String.data he
  simp only [String.data_append, List.append_assoc] at hd
  exact head_chunks_ne _ _ _ _ 40 (by decide) (by decide) (by decide) hd

theorem defaultTemplate_ne_product (topic kt it : String) :
    defaultTemplate topic kt it ≠ productDescriptionTemplate topic kt it := by
  unfold defaultTemplate productDescriptionTemplate
  intro he
  have hd := congrArg String.data he
  simp only [String.data_append, List.append_assoc] at hd
  exact head_chunks_ne _ _ _ _ 40 (by decide) (by decide) (by decide) hd

theorem defaultTemplate_ne_landing (topic kt it : String) :
    defaultTemplate topic kt it ≠ landingPageTemplate topic kt it := by
  unfold defaultTemplate landingPageTemplate
  intro he
  have hd := congrArg String.data he
  simp only [String.data_append, List.append_assoc] at hd
  exact head_chunks_ne _ _ _ _ 40 (by decide) (by decide) (by decide) hd

/-- C2. For every `generationType` not among the four named types,
`generatePrompt` returns exactly the default template's prompt, and that
prompt differs from what each of the four named-type templates would return
on the same inputs (and, being a total function, it cannot raise). -/
theorem generatePrompt_unknown_default (t topic : String) (kws imps : List String)
    (h1 : t ≠ "FAQ") (h2 : t ≠ "Blog Post") (h3 : t ≠ "Product Description")
    (h4 : t ≠ "Landing Page Content") :
    generatePrompt t topic kws imps =
      defaultTemplate topic (keywordTextOf kws) (improvementTextOf imps) ∧
    generatePrompt t topic kws imps ≠ generatePrompt "FAQ" topic kws imps ∧
    generatePrompt t topic kws imps ≠ generatePrompt "Blog Post" topic kws imps ∧
    generatePrompt t topic kws imps ≠ generatePrompt "Product Description" topic kws imps ∧
    generatePrompt t topic kws imps ≠ generatePrompt "Landing Page Content" topic kws imps := by
  have hmain : generatePrompt t topic kws imps =
      defaultTemplate topic (keywordTextOf kws) (improvementTextOf imps) := by
    simp [generatePrompt, h1, h2, h3, h4]
  refine ⟨hmain, ?_, ?_, ?_, ?_⟩ <;> rw [hmain] <;> simp only [generatePrompt]
  · simpa using defaultTemplate_ne_faq topic (keywordTextOf kws) (improvementTextOf imps)
  · simpa using defaultTemplate_ne_blog topic (keywordTextOf kws) (improvementTextOf imps)
  · simpa using defaultTemplate_ne_product topic (keywordTextOf kws) (improvementTextOf imps)
  · simpa using defaultTemplate_ne_landing topic (keywordTextOf kws) (improvementTextOf imps)

/-- C2 (witness): a concrete unrecognized generation type resolves to the
default template. -/
theorem generatePrompt_unknown_default_witness :
    generatePrompt "Poem" "smart wifi" ["wifi 6"] [] =
      defaultTemplate "smart wifi" (keywordTextOf ["wifi 6"]) (improvementTextOf []) ∧
    generatePrompt "Poem" "smart wifi" ["wifi 6"] [] ≠
      generatePrompt "FAQ" "smart wifi" ["wifi 6"] [] ∧
    generatePrompt "Poem" "smart wifi" ["wifi 6"] [] ≠
      generatePrompt "Blog Post" "smart wifi" ["wifi 6"] [] ∧
    generatePrompt "Poem" "smart wifi" ["wifi 6"] [] ≠
      generatePrompt "Product Description" "smart wifi" ["wifi 6"] [] ∧
    generatePrompt "Poem" "smart wifi" ["wifi 6"] [] ≠
      generatePrompt "Landing Page Content" "smart wifi" ["wifi 6"] [] :=
  generatePrompt_unknown_default "Poem" "smart wifi" ["wifi 6"] []
    (by decide) (by decide) (by decide) (by decide)

theorem infix_extend_left {α} (i x m : List α) (h : ∃ s t, s ++ (i ++ t) = m) :
    ∃ s t, s ++ (i ++ t) = x ++ m := by
  obtain ⟨s, t, rfl⟩ := h
  exact ⟨x ++ s, t, by simp [List.append_assoc]⟩

theorem infix_extend_right {α} (i m y : List α) (h : ∃ s t, s ++ (i ++ t) = m) :
    ∃ s t, s ++ (i ++ t) = m ++ y := by
  obtain ⟨s, t, rfl⟩ := h
  exact ⟨s, t ++ y, by simp [List.append_assoc]⟩

/-- C4. For `generationType = "FAQ"` and any topic, keywords and improvements,
the built prompt contains, verbatim, the instruction to produce 8-12
question/answer pairs. -/
theorem faq_prompt_contains_8_12 (topic : String) (kws imps : List String) :
    ∃ s t : List Char,
      s ++ ("Generate 8-12 frequently asked questions with detailed, helpful answers").data ++ t =
        (generatePrompt "FAQ" topic kws imps).data := by
  simp only [generatePrompt, faqTemplate, reduceIte, String.data_append, List.append_assoc]
  apply infix_extend_left
  apply infix_extend_left
  apply infix_extend_right
  exact ⟨("\".\n\nRequirements:\n- ").data,
    ("\n- Each question should address common user concerns, problems, or inquiries\n- Arrange questions from most basic to more specific/advanced\n- Use a conversational, helpful tone that builds trust\n- Include practical examples, tips, or step-by-step guidance where appropriate\n- Structure each Q&A pair clearly with proper HTML semantics\n\nIncorporate these SEO keywords naturally: ").data,
    by decide⟩

/-- C8. The prompt builder is deterministic: its output depends only on the
four inputs (generation type, topic, keywords, improvements); in the
embedding it is a total pure function, so two invocations on identical
inputs always produce the same prompt string. -/
theorem generatePrompt_deterministic (t₁ t₂ topic₁ topic₂ : String)
    (k₁ k₂ i₁ i₂ : List String)
    (ht : t₁ = t₂) (htopic : topic₁ = topic₂) (hk : k₁ = k₂) (hi : i₁ = i₂) :
    generatePrompt t₁ topic₁ k₁ i₁ = generatePrompt t₂ topic₂ k₂ i₂ := by
  rw [ht, htopic, hk, hi]

/-- C8 (witness): determinism at a concrete pair of identical invocations. -/
theorem generatePrompt_deterministic_witness :
    generatePrompt "FAQ" "smart wifi" ["wifi"] ["add FAQs"] =
      generatePrompt "FAQ" "smart wifi" ["wifi"] ["add FAQs"] :=
  generatePrompt_deterministic "FAQ" "FAQ" "smart wifi" "smart wifi"
    ["wifi"] ["wifi"] ["add FAQs"] ["add FAQs"] rfl rfl rfl rfl

/-! ## Scrape-extractor pipeline

Models the tail of the `/api/scrape` handler:
`const uniqueTexts = [...new Set(texts)];`
`const fullText = uniqueTexts.join("\n").substring(0, 10000);`
and the word/character/sentence counts computed from `fullText`.
JavaScript strings are sequences of UTF-16 code units and `substring`,
`length` and `split` operate on code units, so the pipeline is modelled over
`List Nat` of code units (newline is unit 10, the full stop is unit 46). -/

def dedupAux {α} [DecidableEq α] (seen : List α) : List α → List α
  | [] => []
  | x :: xs => if x ∈ seen then dedupAux seen xs else x :: dedupAux (x :: seen) xs

/-- Models `[...new Set(texts)]`: a JavaScript `Set` iterates in insertion
order, so spreading it keeps the first occurrence of each element. -/
def dedupFirst {α} [DecidableEq α] (l : List α) : List α := dedupAux [] l

/-- Modelled from the spec's words (refinement reference, not from the code):
keep each element where it first occurs and erase its later repeats. -/
def specDedup {α} [DecidableEq α] : List α → List α
  | [] => []
  | x :: xs => x :: specDedup (xs.filter (fun y => decide (y ≠ x)))
termination_by l => l.length
decreasing_by
  simp only [List.length_cons]
  exact Nat.lt_succ_of_le (List.length_filter_le _ _)

/-- Models `fullText`: join the deduplicated fragments with the newline code
unit and keep the first 10,000 code units (`substring(0, 10000)`). -/
def scrapeFullText (texts : List (List Nat)) : List Nat :=
  (List.intercalate [10] (dedupFirst texts)).take 10000

/-- Models `fullText.split(/\s+/)`: each maximal whitespace run is one
separator match (a unit extending a run to its left leaves the segments
unchanged; a unit starting a new run opens a fresh boundary). -/
def splitWs : List Nat → List (List Nat)
  | [] => [[]]
  | c :: cs =>
    if wsU c then
      match cs, splitWs cs with
      | d :: _, r => if wsU d then r else [] :: r
      | [], r => [] :: r
    else
      match splitWs cs with
      | s :: rest => (c :: s) :: rest
      | [] => [[c]]

/-- Models `fullText.split(".")` (the full stop is code unit 46). -/
def splitOnDot : List Nat → List (List Nat)
  | [] => [[]]
  | c :: cs =>
    if c = 46 then [] :: splitOnDot cs
    else
      match splitOnDot cs with
      | s :: rest => (c :: s) :: rest
      | [] => [[c]]

/-- Models the `wordCount` field of the `/api/scrape` response. -/
def scrapeWordCount (texts : List (List Nat)) : Nat :=
  (splitWs (scrapeFullText texts)).length

/-- Models the `sentenceCount` field of the `/api/scrape` response. -/
def scrapeSentenceCount (texts : List (List Nat)) : Nat :=
  (splitOnDot (scrapeFullText texts)).length

/-- High-surrogate code units: first half of an astral character. -/
def isHighSurrogate (u : Nat) : Bool := 0xD800 ≤ u && u ≤ 0xDBFF

/-- Low-surrogate code units: second half of an astral character. -/
def isLowSurrogate (u : Nat) : Bool := 0xDC00 ≤ u && u ≤ 0xDFFF

/-- A code-unit sequence is well formed when every high surrogate is followed
by a low surrogate and no low surrogate appears alone: exactly the sequences
that denote character strings without split multi-unit characters. -/
def wellFormedUtf16 : List Nat → Bool
  | [] => true
  | u :: us =>
    if isHighSurrogate u then
      match us with
      | v :: vs => isLowSurrogate v && wellFormedUtf16 vs
      | [] => false
    else if isLowSurrogate u then false
    else wellFormedUtf16 us

example : splitWs [97, 32, 32, 98] = [[97], [98]] := by decide
example : splitWs [] = [[]] := by decide
example : splitOnDot [] = [[]] := by decide
example : splitOnDot [46] = [[], []] := by decide
example : dedupFirst [[97], [98], [97]] = [[97], [98]] := by decide

/-! ## Lemmas about deduplication -/

theorem dedupAux_eq_specDedup {α} [DecidableEq α] (xs : List α) (seen : List α) :
    dedupAux seen xs = specDedup (xs.filter (fun y => decide (y ∉ seen))) := by
  induction xs generalizing seen with
  | nil => simp [dedupAux, specDedup]
  | cons x rest ih =>
    by_cases hx : x ∈ seen
    · have hd : decide (x ∉ seen) = false := by simp [hx]
      rw [dedupAux, if_pos hx, List.filter_cons, hd, if_neg Bool.false_ne_true]
      exact ih seen
    · have hd : decide (x ∉ seen) = true := by simp [hx]
      rw [dedupAux, if_neg hx, List.filter_cons, hd, if_pos rfl]
      rw [specDedup]
      congr 1
      rw [ih (x :: seen), List.filter_filter]
      congr 1
      apply List.filter_congr
      intro y _
      by_cases h1 : y = x <;> by_cases h2 : y ∈ seen <;> simp [h1, h2]

theorem dedupFirst_eq_specDedup {α} [DecidableEq α] (l : List α) :
    dedupFirst l = specDedup l := by
  rw [dedupFirst, dedupAux_eq_specDedup]
  congr 1
  apply List.filter_eq_self.mpr
  intro y _
  simp

theorem specDedup_sublist {α} [DecidableEq α] (l : List α) :
    List.Sublist (specDedup l) l := by
  induction l using specDedup.induct with
  | case1 => simp [specDedup]
  | case2 x xs ih =>
    rw [specDedup]
    exact List.Sublist.cons₂ x (ih.trans (List.filter_sublist xs))

theorem specDedup_nodup {α} [DecidableEq α] (l : List α) :
    (specDedup l).Nodup := by
  induction l using specDedup.induct with
  | case1 => simp [specDedup]
  | case2 x xs ih =>
    rw [specDedup]
    refine List.Nodup.cons ?_ ih
    intro hmem
    have hsub := (specDedup_sublist (xs.filter (fun y => decide (y ≠ x)))).subset hmem
    have := (List.mem_filter.mp hsub).2
    simp at this

/-- C5. Deduplication in the content-scrape extractor (`[...new Set(texts)]`)
returns a list with no repeated entries, an order-preserving sublist of the
input, equal to the spec-side reference that keeps every element exactly at
its first occurrence and erases later repeats. -/
theorem dedupFirst_first_seen (texts : List String) :
    (dedupFirst texts).Nodup ∧
    List.Sublist (dedupFirst texts) texts ∧
    dedupFirst texts = specDedup texts := by
  refine ⟨?_, ?_, dedupFirst_eq_specDedup texts⟩
  · rw [dedupFirst_eq_specDedup]; exact specDedup_nodup texts
  · rw [dedupFirst_eq_specDedup]; exact specDedup_sublist texts

/-! ## Truncation and count lemmas -/

theorem wellFormedUtf16_replicate_97 (n : Nat) (rest : List Nat) :
    wellFormedUtf16 (List.replicate n 97 ++ rest) = wellFormedUtf16 rest := by
  have hH : isHighSurrogate 97 = false := by decide
  have hL : isLowSurrogate 97 = false := by decide
  induction n with
  | zero => simp
  | succ k ih =>
    rw [List.replicate_succ, List.cons_append, wellFormedUtf16.eq_def]
    simp [hH, hL, ih]

/-- C3 (amended). The scrape extractor's output text never exceeds 10,000
UTF-16 code units (hence never more than 10,000 characters), and it is a
prefix of the newline-joined deduplicated fragments. -/
theorem scrapeFullText_bounded (texts : List (List Nat)) :
    (scrapeFullText texts).length ≤ 10000 ∧
    ∃ rest, scrapeFullText texts ++ rest = List.intercalate [10] (dedupFirst texts) := by
  constructor
  · rw [scrapeFullText, List.length_take]
    exact Nat.min_le_left _ _
  · exact ⟨(List.intercalate [10] (dedupFirst texts)).drop 10000,
      List.take_append_drop _ _⟩

/-- C3 (counterexample). Truncation is **not** byte-safe: for a fragment of
9,999 ASCII units followed by one astral character (surrogate pair
`0xD83D 0xDE00`), the joined text is well-formed UTF-16 but the truncated
output ends in a lone high surrogate, i.e. the cut falls inside a
multi-unit character. -/
theorem intercalate_singleton {α} (sep : List α) (x : List α) :
    List.intercalate sep [x] = x := by
  simp [List.intercalate]

theorem scrape_truncation_splits_surrogate :
    wellFormedUtf16 (List.intercalate [10]
      (dedupFirst [List.replicate 9999 97 ++ [0xD83D, 0xDE00]])) = true ∧
    wellFormedUtf16 (scrapeFullText [List.replicate 9999 97 ++ [0xD83D, 0xDE00]]) = false := by
  have hded : dedupFirst [List.replicate 9999 (97:Nat) ++ [0xD83D, 0xDE00]] =
      [List.replicate 9999 97 ++ [0xD83D, 0xDE00]] := rfl
  constructor
  · rw [hded, intercalate_singleton, wellFormedUtf16_replicate_97]
    decide
  · rw [scrapeFullText, hded, intercalate_singleton, List.take_append_eq_append_take,
      List.take_replicate, List.length_replicate]
    have h1 : 10000 ⊓ 9999 = 9999 := by norm_num
    have h2 : (10000 - 9999 : Nat) = 1 := by norm_num
    have h3 : List.take 1 [(0xD83D : Nat), 0xDE00] = [0xD83D] := rfl
    rw [h1, h2, h3, wellFormedUtf16_replicate_97]
    decide

theorem splitWs_ne_nil (s : List Nat) : splitWs s ≠ [] := by
  induction s with
  | nil => simp [splitWs]
  | cons c cs ih =>
    rw [splitWs.eq_def]
    by_cases h : wsU c
    · cases cs with
      | nil => simp [h]
      | cons d ds =>
        by_cases hd : wsU d <;> simp [h, hd, ih]
    · cases hsp : splitWs cs with
      | nil => exact absurd hsp ih
      | cons s rest => simp [h, hsp]

theorem splitOnDot_ne_nil (s : List Nat) : splitOnDot s ≠ [] := by
  induction s with
  | nil => simp [splitOnDot]
  | cons c cs ih =>
    rw [splitOnDot]
    by_cases h : c = 46
    · simp [h]
    · cases hsp : splitOnDot cs <;> simp [h, hsp]

/-- C9. The `/api/scrape` response counts come from `split`, which always
returns at least one segment: `wordCount` and `sentenceCount` are at least 1
for every fragment list, and when the extracted full text is empty both are
exactly 1 (splitting the empty string yields one empty segment), not 0. -/
theorem scrape_counts_at_least_one (texts : List (List Nat)) :
    1 ≤ scrapeWordCount texts ∧ 1 ≤ scrapeSentenceCount texts ∧
    (scrapeFullText texts = [] →
      scrapeWordCount texts = 1 ∧ scrapeSentenceCount texts = 1) := by
  refine ⟨?_, ?_, ?_⟩
  · exact List.length_pos.mpr (splitWs_ne_nil _)
  · exact List.length_pos.mpr (splitOnDot_ne_nil _)
  · intro h
    rw [scrapeWordCount, scrapeSentenceCount, h]
    exact ⟨rfl, rfl⟩

/-- C9 (witness): an empty fragment list yields the empty full text and both
counts equal to 1. -/
theorem scrape_counts_at_least_one_witness :
    scrapeWordCount [] = 1 ∧ scrapeSentenceCount [] = 1 :=
  (scrape_counts_at_least_one []).2.2 rfl

/-! ## Content-scrape DOM extraction and body fallback

The cheerio queries of the `/api/scrape` handler are modelled by a `Doc`
record holding exactly what the handler reads from the DOM: the raw text of
every `main`, `section` and `article` element (in document order), every
`div` as its class attribute paired with its text, and the text of `body`. -/

/-- Models `replace(/\s+/g, " ")`: every whitespace run becomes one space. -/
def squashWs : List Char → List Char
  | [] => []
  | c :: cs =>
    if wsChar c then
      match cs with
      | d :: _ => if wsChar d then squashWs cs else ' ' :: squashWs cs
      | [] => [' ']
    else c :: squashWs cs

/-- Models `text.trim().replace(/\s+/g, " ")` applied to an element text. -/
def collapseWs (s : String) : String := String.mk (squashWs (jsTrim s.data))

/-- DOM snapshot as seen by the handler's cheerio queries. -/
structure Doc where
  mainTexts : List String
  sectionTexts : List String
  articleTexts : List String
  divs : List (String × String)
  bodyText : String

/-- Substring containment on character lists, modelling `String.includes`. -/
def containsSeq (pat : List Char) : List Char → Bool
  | [] => startsWithL pat []
  | c :: cs => startsWithL pat (c :: cs) || containsSeq pat cs

/-- Models the div filter
`className.includes("content") || className.includes("main") || className.includes("text")`. -/
def classMatches (cls : String) : Bool :=
  containsSeq ("content".toList) cls.data || containsSeq ("main".toList) cls.data ||
    containsSeq ("text".toList) cls.data

/-- Models the push loops: keep each collapsed text that is nonempty
(`if (text) texts.push(text)`), preserving document order. -/
def collectNonEmpty (ts : List String) : List String :=
  ts.foldr (fun t acc => if collapseWs t = "" then acc else collapseWs t :: acc) []

/-- Fragment-collection phase of `/api/scrape`: semantic tags in the order
`main`, `section`, `article`; then matching divs; then, if nothing was
collected, the collapsed body text (pushed only when nonempty). -/
def collectTexts (d : Doc) : List String :=
  let tagTexts := collectNonEmpty (d.mainTexts ++ d.sectionTexts ++ d.articleTexts)
  let divTexts := collectNonEmpty ((d.divs.filter (fun cd => classMatches cd.1)).map (fun cd => cd.2))
  let texts := tagTexts ++ divTexts
  if texts = [] then collectNonEmpty [d.bodyText] else texts

theorem collectNonEmpty_nil (ts : List String) (h : ∀ t ∈ ts, collapseWs t = "") :
    collectNonEmpty ts = [] := by
  induction ts with
  | nil => rfl
  | cons t rest ih =>
    simp only [collectNonEmpty, List.foldr_cons] at ih ⊢
    rw [if_pos (h t (by simp))]
    exact ih (fun x hx => h x (by simp [hx]))

/-- C6. When no semantic container and no matching div yields non-empty
collapsed text, the extractor falls back to the whitespace-collapsed, trimmed
body text as the sole collected fragment (and collects nothing at all when
even the body text collapses to the empty string). -/
theorem collectTexts_body_fallback (d : Doc)
    (htags : ∀ t ∈ d.mainTexts ++ d.sectionTexts ++ d.articleTexts, collapseWs t = "")
    (hdivs : ∀ cd ∈ d.divs, classMatches cd.1 = true → collapseWs cd.2 = "") :
    (collapseWs d.bodyText ≠ "" → collectTexts d = [collapseWs d.bodyText]) ∧
    (collapseWs d.bodyText = "" → collectTexts d = []) := by
  have h1 : collectNonEmpty (d.mainTexts ++ d.sectionTexts ++ d.articleTexts) = [] :=
    collectNonEmpty_nil _ htags
  have h2 : collectNonEmpty
      ((d.divs.filter (fun cd => classMatches cd.1)).map (fun cd => cd.2)) = [] := by
    apply collectNonEmpty_nil
    intro t ht
    obtain ⟨cd, hcd, rfl⟩ := List.mem_map.mp ht
    have := List.mem_filter.mp hcd
    exact hdivs cd this.1 this.2
  constructor
  · intro hb
    rw [collectTexts, h1, h2]
    simp only [List.append_nil, if_true]
    simp only [collectNonEmpty, List.foldr_cons, List.foldr_nil, if_neg hb, if_true]
  · intro hb
    rw [collectTexts, h1, h2]
    simp only [List.append_nil, if_true]
    simp only [collectNonEmpty, List.foldr_cons, List.foldr_nil, if_pos hb, if_true]

/-- C6 (witness): a document whose containers hold only whitespace falls back
to the collapsed body text. -/
theorem collectTexts_body_fallback_witness :
    collectTexts ⟨["  "], [], [], [("content", " ")], "Hello  world"⟩ =
      [collapseWs "Hello  world"] :=
  (collectTexts_body_fallback ⟨["  "], [], [], [("content", " ")], "Hello  world"⟩
    (by decide) (by decide)).1 (by decide)

/-! ## Request handlers: validation and credential logic

The two POST handlers are embedded as pure functions over the request fields
they read, with the external collaborators (`JSON.parse` plus the
`SEOAnalysis` field accesses, and the OpenAI chat-completion client) passed
in as function arguments.  `maxTokens` and `temperature` are forwarded
verbatim to the external client and are not modelled. -/

/-- Response at the handler boundary: a success body or an error status with
its error message. -/
inductive Resp
  | ok (body : String)
  | err (status : Nat) (error : String)
deriving DecidableEq

/-- Observable collaborator invocations of the generate-content handler. -/
inductive Effect
  | parseSeoData
  | invokeModel
deriving DecidableEq

/-- JavaScript falsiness of an optional string field: `!x` holds for a
missing field and for the empty string. -/
def optFalsy : Option String → Bool
  | none => true
  | some s => decide (s = "")

/-- Request body of `/api/generate-content`, restricted to the fields the
handler logic reads. -/
structure GenRequest where
  seoData : Option String
  contentTopic : Option String
  generationType : Option String
  apiKey : Option String
  selectedImprovements : List String := []
  selectedKeywords : List String := []

/-- The SEO fields the handler reads out of the parsed `seoData`
(`SEOAnalysis.NewKeywordTargets.SuggestedKeywords` and
`SEOAnalysis.Improvements`). -/
structure SeoParsed where
  suggestedKeywords : List String
  improvements : List String

/-- The `/api/generate-content` handler (second revision): validate the four
required fields, parse the SEO JSON, choose keywords and improvements
(request selection wins over parsed suggestions when nonempty), build the
prompt, call the model, clean the response.  `parse` returning `none` models
a `JSON.parse` or field-access throw, caught as a 500.  The effect list
records which collaborators ran, in order. -/
def generateContentHandler (req : GenRequest) (parse : String → Option SeoParsed)
    (callModel : String → String) : Resp × List Effect :=
  if optFalsy req.seoData || optFalsy req.contentTopic ||
      optFalsy req.generationType || optFalsy req.apiKey then
    (Resp.err 400 "SEO data, content topic, generation type, and API key are required", [])
  else
    match parse (req.seoData.getD "") with
    | none => (Resp.err 500 "Failed to generate content", [Effect.parseSeoData])
    | some seoParsed =>
      let suggestedKeywords :=
        if 0 < req.selectedKeywords.length then req.selectedKeywords
        else seoParsed.suggestedKeywords
      let suggestedImprovements :=
        if 0 < req.selectedImprovements.length then req.selectedImprovements
        else seoParsed.improvements
      let prompt := generatePrompt (req.generationType.getD "") (req.contentTopic.getD "")
        suggestedKeywords suggestedImprovements
      (Resp.ok (String.mk (cleanHtmlResponse (callModel prompt).data)),
        [Effect.parseSeoData, Effect.invokeModel])

/-- Fixed part of the `/api/analyze-seo` prompt before the page content. -/
def analysisPromptA : String := "
        You are an SEO expert. Analyze the following content about Smart WiFi for SEO performance. Assess:
        1. Does the content use relevant keywords about smart wifi and related topics? Is it likely to rank well for high-volume keywords?
        2. What improvements can be made to increase SEO performance?
        3. Suggest new keywords (with high search volume) that should be targeted, and recommend content topics or sections to add.

        Content:
        "

/-- Fixed part of the `/api/analyze-seo` prompt after the page content (the
braces of the JSON schema example are written as character escapes). -/
def analysisPromptB : String := "

        Provide the output in JSON format with the following structure:
        \x7b
            \"SEOAnalysis\": \x7b
                \"CurrentKeywords\": [\"keyword1\", \"keyword2\"],
                \"SEOScore\": 75,
                \"Improvements\": [\"improvement1\", \"improvement2\"],
                \"NewKeywordTargets\": \x7b
                    \"SuggestedKeywords\": [\"new_keyword1\", \"new_keyword2\"],
                    \"ContentTopicsToAdd\": [\"topic1\", \"topic2\"]
                \x7d
            \x7d
        \x7d
        "

/-- The `/api/analyze-seo` analysis prompt with the content interpolated. -/
def analysisPrompt (content : String) : String :=
  analysisPromptA ++ content ++ analysisPromptB

/-- The `/api/analyze-seo` handler: the destructuring default
`apiKey = process.env.OPENAI_API_KEY` substitutes the environment credential
only when the body has no `apiKey` property; validation then rejects a falsy
content or credential with 400.  Returns the response paired with the
credential handed to the OpenAI client (`none` when validation failed). -/
def analyzeSeoHandler (env : Option String) (content apiKeyField : Option String)
    (callModel : String → String → String) : Resp × Option String :=
  let apiKey : Option String :=
    match apiKeyField with
    | some k => some k
    | none => env
  if optFalsy content || optFalsy apiKey then
    (Resp.err 400 "Content and API key are required", none)
  else
    let key := apiKey.getD ""
    (Resp.ok (callModel key (analysisPrompt (content.getD ""))), some key)

/-- C7. If any of `seoData`, `contentTopic`, `generationType`, `apiKey` is
absent, `/api/generate-content` answers 400 with the validation error message
immediately: no parse of `seoData` and no model invocation happens (the
effect trace is empty). -/
theorem generateContent_missing_field_400 (req : GenRequest)
    (parse : String → Option SeoParsed) (callModel : String → String)
    (h : req.seoData = none ∨ req.contentTopic = none ∨
         req.generationType = none ∨ req.apiKey = none) :
    generateContentHandler req parse callModel =
      (Resp.err 400 "SEO data, content topic, generation type, and API key are required",
        []) := by
  have hcond : (optFalsy req.seoData || optFalsy req.contentTopic ||
      optFalsy req.generationType || optFalsy req.apiKey) = true := by
    rcases h with h | h | h | h <;> simp [h, optFalsy]
  rw [generateContentHandler, if_pos hcond]

/-- C7 (witness): a request missing only `apiKey` is rejected with 400 and an
empty effect trace. -/
theorem generateContent_missing_field_400_witness :
    generateContentHandler ⟨some "\x7b\x7d", some "smart wifi", some "FAQ", none, [], []⟩
      (fun _ => none) (fun _ => "out") =
      (Resp.err 400 "SEO data, content topic, generation type, and API key are required",
        []) :=
  generateContent_missing_field_400 _ _ _ (Or.inr (Or.inr (Or.inr rfl)))

/-- C10. The per-request credential fallback is asymmetric:
`/api/analyze-seo` substitutes the process-wide `OPENAI_API_KEY` environment
credential when the body omits `apiKey` and hands exactly that credential to
the model client, whereas `/api/generate-content` consults no environment at
all (its logic reads no environment credential) and rejects every request
without a body `apiKey` with a 400 error. -/
theorem apiKey_fallback_asymmetric (envKey content : String)
    (cm : String → String → String)
    (hk : envKey ≠ "") (hc : content ≠ "") :
    (analyzeSeoHandler (some envKey) (some content) none cm).2 = some envKey ∧
    (analyzeSeoHandler (some envKey) (some content) none cm).1 =
      Resp.ok (cm envKey (analysisPrompt content)) ∧
    ∀ (req : GenRequest) (parse : String → Option SeoParsed)
      (callModel : String → String), req.apiKey = none →
      generateContentHandler req parse callModel =
        (Resp.err 400 "SEO data, content topic, generation type, and API key are required",
          []) := by
  have hcond : (optFalsy (some content) || optFalsy (some envKey)) = false := by
    simp [optFalsy, hc, hk]
  refine ⟨?_, ?_, ?_⟩
  · rw [analyzeSeoHandler]
    simp only [hcond, Bool.false_eq_true, if_false]
    rfl
  · rw [analyzeSeoHandler]
    simp only [hcond, Bool.false_eq_true, if_false]
    rfl
  · intro req parse callModel hnone
    have hcond2 : (optFalsy req.seoData || optFalsy req.contentTopic ||
        optFalsy req.generationType || optFalsy req.apiKey) = true := by
      simp [hnone, optFalsy]
    rw [generateContentHandler, if_pos hcond2]

/-- C10 (witness): the asymmetry at a concrete environment credential,
request content, and keyless generate-content request. -/
theorem apiKey_fallback_asymmetric_witness :
    (analyzeSeoHandler (some "sk-env") (some "page text") none (fun k _ => k)).2 =
      some "sk-env" ∧
    (analyzeSeoHandler (some "sk-env") (some "page text") none (fun k _ => k)).1 =
      Resp.ok "sk-env" ∧
    generateContentHandler ⟨some "x", some "t", some "FAQ", none, [], []⟩
      (fun _ => none) (fun _ => "o") =
      (Resp.err 400 "SEO data, content topic, generation type, and API key are required",
        []) :=
  ⟨(apiKey_fallback_asymmetric "sk-env" "page text" (fun k _ => k)
      (by decide) (by decide)).1,
   (apiKey_fallback_asymmetric "sk-env" "page text" (fun k _ => k)
      (by decide) (by decide)).2.1,
   (apiKey_fallback_asymmetric "sk-env" "page text" (fun k _ => k)
      (by decide) (by decide)).2.2 _ _ _ rfl⟩
